import Mathlib

/-!
# Verification of the purchase-system client's session core

Shallow embedding of the Session Manager (`src/context/AuthContext.jsx`)
and the identity-service helpers (`src/services/userService.js`).

Modelling conventions:
- JavaScript optional values become `Option`; JS truthiness of strings
  (`undefined`/`""` falsy) is `strTruthy`, of numbers (`undefined`/`0` falsy)
  is `numTruthy`; `a || b` on such values is `jsOrS`.
- `Date.now()` is an explicit `now : Int` parameter (milliseconds).
- `localStorage` under the `"user"` key is `Option StoredJSON`; a value that
  `JSON.parse` accepts is `StoredJSON.valid r` (serialization of the session
  record round-trips exactly), anything unparsable is `StoredJSON.corrupt`.
- `setTimeout`/`clearTimeout` are modelled by a list of pending
  `(handle, absolute fire time)` pairs plus the `logoutTimerRef` cell, so that
  the single-timer discipline is a provable property, not a modelling artifact.
- The `await fetchCurrentUser` suspension point inside `login` is modelled by
  passing the eventual enrichment outcome as an `Except Unit UserObj`
  parameter; `loginLogoutRace` is the interleaving where `logout()` runs on
  the event loop while that call is pending.
-/

/-- JS truthiness of an optional string: `undefined` and `""` are falsy. -/
def strTruthy : Option String → Bool
  | none => false
  | some s => s != ""

/-- JS truthiness of an optional number: `undefined` and `0` are falsy. -/
def numTruthy : Option Int → Bool
  | none => false
  | some v => v != 0

/-- JS `a || b` on optional strings. -/
def jsOrS (a b : Option String) : Option String :=
  if strTruthy a then a else b

/-- A user object as returned by the backend (`raw` in `normalizeUser`):
the fields the client ever reads. -/
structure UserObj where
  id : Option String
  _id : Option String
  userId : Option String
  username : Option String
  email : Option String
  role : Option String
deriving DecidableEq, Repr

/-- `normalizeUser` from `userService.js` on a non-null object: destructures
`id`, `_id`, `userId`, `username`, `email`, `role` out of `raw` (so `rest`
carries none of them, and every `rest?.x` below is `undefined`) and rebuilds
`{ id: id || _id || userId || rest?.id, username: username || rest?.username,
   email: email || rest?.email, role: role || rest?.role || "user", ... }`.
The trailing `|| undefined` matters: a chain whose operands are all falsy
evaluates to its last operand, so e.g. `"" || undefined` is `undefined` —
a falsy `""` does not survive into the normalized object. -/
def normalizeUser (raw : UserObj) : UserObj :=
  { id := jsOrS raw.id (jsOrS raw._id (jsOrS raw.userId none))
    _id := none
    userId := none
    username := jsOrS raw.username none
    email := jsOrS raw.email none
    role := jsOrS raw.role (some "user") }

/-- The `res.data` of a transport-successful POST `/auth/login`. -/
structure LoginResponse where
  token : Option String
  user : Option UserObj
deriving DecidableEq, Repr

/-- `loginUser` from `userService.js`, after a transport-successful POST:
`token = res.data?.token`, `user = normalizeUser(res.data?.user)`,
`if (!token || !user) throw`, else `return { user, token }`. A missing `user`
field gives `normalizeUser(undefined) = undefined`, which is falsy; a present
user object normalizes to an object, which is truthy. -/
def loginUser (resp : LoginResponse) : Except String (UserObj × String) :=
  match resp.token, resp.user with
  | some t, some u =>
      if t = "" then .error "Malformed login response: expected token and user"
      else .ok (normalizeUser u, t)
  | _, _ => .error "Malformed login response: expected token and user"

/-- The `res.data` of a transport-successful GET `/auth/me`: either it has a
`user` field or the data object itself is the user (`res.data?.user || res.data`). -/
structure MeResponse where
  user : Option UserObj
  selfObj : UserObj
deriving DecidableEq, Repr

/-- `fetchCurrentUser` from `userService.js`, given a transport-successful
response: `if (!token) throw "Missing auth token"`, else
`normalizeUser(res.data?.user || res.data)`. -/
def fetchCurrentUser (token : Option String) (resp : MeResponse) :
    Except String UserObj :=
  if strTruthy token = false then .error "Missing auth token"
  else .ok (normalizeUser (resp.user.getD resp.selfObj))

/-- Default expiry window used by `computeExpiry`: `60 * 60 * 1000` ms. -/
def hourMs : Int := 3600000

/-- `computeExpiry(ms)` from `userService.js`: `Date.now() + ms`. -/
def computeExpiry (now ms : Int) : Int := now + ms

/-- The session record the AuthProvider keeps in memory and persists under
the `"user"` localStorage key (`toStore` in `login`). -/
structure Session where
  token : Option String
  role : Option String
  id : Option String
  username : Option String
  expiresAt : Option Int
deriving DecidableEq, Repr

/-- A value found under the `"user"` localStorage key: either valid serialized
session data (parsing recovers the record exactly) or corrupt data on which
`JSON.parse` throws. -/
inductive StoredJSON where
  | valid (r : Session)
  | corrupt
deriving DecidableEq, Repr

/-- The AuthProvider's state: the persisted record, the in-memory `user`,
the set of pending timeouts as `(handle, absolute fire time)` pairs, the
`logoutTimerRef` cell, a fresh-handle counter, and the `ready` flag. -/
structure AuthState where
  store : Option StoredJSON
  user : Option Session
  pending : List (Nat × Int)
  ref : Option Nat
  nextH : Nat
  ready : Bool
deriving DecidableEq, Repr

/-- The provider's state at mount, before the hydration effect runs, over a
given localStorage content. Handles issued by `setTimeout` start at 1
(they are truthy positive integers). -/
def authInit (st : Option StoredJSON) : AuthState :=
  ⟨st, none, [], none, 1, false⟩

/-- `clearLogoutTimer` from `AuthContext.jsx`: if `logoutTimerRef.current` is
set, `clearTimeout` it (remove that handle from the pending timeouts) and
null the ref. -/
def clearLogoutTimer (s : AuthState) : AuthState :=
  match s.ref with
  | some h => { s with pending := s.pending.filter (fun p => p.1 != h), ref := none }
  | none => s

/-- `logout` from `AuthContext.jsx`: remove the persisted record, set the
in-memory user to null, and clear any pending logout timer. -/
def logout (s : AuthState) : AuthState :=
  clearLogoutTimer { s with store := none, user := none }

/-- `scheduleAutoLogout(expiresAt)` from `AuthContext.jsx`: always clear the
previous timer first; if `expiresAt` is falsy do nothing; if the remaining
interval `expiresAt - Date.now()` is ≤ 0 log out synchronously; else arm one
timeout that will fire at `expiresAt`. -/
def scheduleAutoLogout (now : Int) (e : Option Int) (s : AuthState) : AuthState :=
  let s1 := clearLogoutTimer s
  if numTruthy e = false then s1
  else if e.getD 0 - now ≤ 0 then logout s1
  else { s1 with pending := (s1.nextH, e.getD 0) :: s1.pending,
                 ref := some s1.nextH, nextH := s1.nextH + 1 }

/-- The mount effect of `AuthProvider` (hydration): read the `"user"` key; if
absent just set `ready`; if unparsable clear the key; if parsed and
`expiresAt && Date.now() >= Number(expiresAt)` clear the key; otherwise
restore the parsed record as the in-memory user. Always ends with
`setReady(true)`, and no exception escapes the `try`/`catch`. -/
def hydrate (now : Int) (s : AuthState) : AuthState :=
  match s.store with
  | none => { s with ready := true }
  | some .corrupt => { s with store := none, ready := true }
  | some (.valid r) =>
      if numTruthy r.expiresAt ∧ r.expiresAt.getD 0 ≤ now then
        { s with store := none, ready := true }
      else
        { s with user := some r, ready := true }

/-- The `[user?.expiresAt]` effect of `AuthProvider`: when the user has a
truthy `expiresAt`, `scheduleAutoLogout(user.expiresAt)`; otherwise
`clearLogoutTimer()`. -/
def userEffect (now : Int) (s : AuthState) : AuthState :=
  match s.user with
  | some u => if numTruthy u.expiresAt then scheduleAutoLogout now u.expiresAt s
              else clearLogoutTimer s
  | none => clearLogoutTimer s

/-- Startup as observed by the view layer: the hydration effect followed by
the `[user?.expiresAt]` effect it triggers. -/
def hydrateFull (now : Int) (s : AuthState) : AuthState :=
  userEffect now (hydrate now s)

/-- The expiry chosen by `login`: `userData?.expiresAt || computeExpiry()`. -/
def loginExpiry (now : Int) (d : Session) : Int :=
  if numTruthy d.expiresAt then d.expiresAt.getD 0 else computeExpiry now hourMs

/-- The body of `login`'s enrichment `try` block on a resolved
`fresh = fetchCurrentUser(token)`:
`toStore.role = fresh?.role || toStore.role;`
`toStore.id = toStore.id || fresh?.id || fresh?._id || fresh?.userId`. -/
def applyEnrich (t : Session) (fresh : UserObj) : Session :=
  { t with role := jsOrS fresh.role t.role
           id := jsOrS t.id (jsOrS fresh.id (jsOrS fresh._id fresh.userId)) }

/-- The tail of `login` after enrichment settles:
`localStorage.setItem("user", JSON.stringify(toStore)); setUser(toStore);
scheduleAutoLogout(expiresAt)`. -/
def finishLogin (now e : Int) (t : Session) (s : AuthState) : AuthState :=
  scheduleAutoLogout now (some e) { s with store := some (.valid t), user := some t }

/-- `login(userData)` from `AuthContext.jsx`, run to completion with no other
event interleaved. `enr` is the eventual outcome of the
`await fetchCurrentUser(toStore.token)` call, consulted only when
`!toStore.role && toStore.token`; a rejection (`.error`) is swallowed by the
`catch` and the user stays logged in. -/
def login (now : Int) (d : Session) (enr : Except Unit UserObj) (s : AuthState) :
    AuthState :=
  let e := loginExpiry now d
  let t0 : Session := { d with expiresAt := some e }
  let t1 := if strTruthy t0.role = false ∧ strTruthy t0.token = true then
              match enr with
              | .ok f => applyEnrich t0 f
              | .error _ => t0
            else t0
  finishLogin now e t1 s

/-- The interleaving in which `login(userData)` (with `toStore.role` falsy and
`toStore.token` truthy, so it suspends at `await fetchCurrentUser`) is
overtaken by a `logout()` running on the event loop, after which the
enrichment promise settles and the rest of `login` resumes. There is no
cancellation guard in the source, so the resumed tail runs unconditionally. -/
def loginLogoutRace (now : Int) (d : Session) (enr : Except Unit UserObj)
    (s : AuthState) : AuthState :=
  let e := loginExpiry now d
  let t0 : Session := { d with expiresAt := some e }
  let t1 := match enr with
            | .ok f => applyEnrich t0 f
            | .error _ => t0
  finishLogin now e t1 (logout s)

/-- Firing of the pending timeout with handle `h` (the event loop reaches its
deadline): the timeout is consumed and its callback, `logout()`, runs.
Firing a handle that is not pending is a no-op. -/
def fireTimer (h : Nat) (s : AuthState) : AuthState :=
  if s.pending.any (fun p => p.1 == h) then
    logout { s with pending := s.pending.filter (fun p => p.1 != h) }
  else s

/-- The timer discipline the provider maintains: at most one pending timeout,
and when one is pending, `logoutTimerRef` holds its handle. -/
def TimerInv (s : AuthState) : Bool :=
  match s.pending, s.ref with
  | [], _ => true
  | [p], some h => p.1 == h
  | _, _ => false

example : TimerInv (authInit none) = true := by decide

example :
    (login 1000 ⟨some "t1", none, none, none, none⟩ (.error ()) (authInit none)).pending
      = [(1, 3601000)] := by decide

example :
    (hydrateFull 1000 (authInit (some (.valid ⟨some "t2", none, none, none, some 500⟩)))).user
      = none := by decide

/-! ## Basic facts about the timer plumbing -/

theorem clearLogoutTimer_user (s : AuthState) : (clearLogoutTimer s).user = s.user := by
  rcases s with ⟨st, u, p, r, n, rd⟩
  cases r <;> rfl

theorem clearLogoutTimer_store (s : AuthState) : (clearLogoutTimer s).store = s.store := by
  rcases s with ⟨st, u, p, r, n, rd⟩
  cases r <;> rfl

theorem clearLogoutTimer_nextH (s : AuthState) : (clearLogoutTimer s).nextH = s.nextH := by
  rcases s with ⟨st, u, p, r, n, rd⟩
  cases r <;> rfl

theorem clearLogoutTimer_ref (s : AuthState) : (clearLogoutTimer s).ref = none := by
  rcases s with ⟨st, u, p, r, n, rd⟩
  cases r <;> rfl

theorem clearLogoutTimer_pending_nil (s : AuthState) (h : TimerInv s = true) :
    (clearLogoutTimer s).pending = [] := by
  rcases s with ⟨st, u, p, r, n, rd⟩
  cases r with
  | none =>
    cases p with
    | nil => rfl
    | cons q t => cases t <;> simp [TimerInv] at h
  | some hh =>
    cases p with
    | nil => rfl
    | cons q t =>
      cases t with
      | nil =>
        simp [TimerInv] at h
        simp [clearLogoutTimer, List.filter, h]
      | cons q2 t2 => simp [TimerInv] at h

theorem TimerInv_of_pending_nil (s : AuthState) (h : s.pending = []) :
    TimerInv s = true := by
  rcases s with ⟨st, u, p, r, n, rd⟩
  simp only at h
  subst h
  rfl

theorem clearLogoutTimer_pending_sub (s : AuthState) (h : s.pending = []) :
    (clearLogoutTimer s).pending = [] := by
  rcases s with ⟨st, u, p, r, n, rd⟩
  simp only at h
  subst h
  cases r <;> rfl

theorem logout_user (s : AuthState) : (logout s).user = none := by
  unfold logout
  rw [clearLogoutTimer_user]

theorem logout_store (s : AuthState) : (logout s).store = none := by
  unfold logout
  rw [clearLogoutTimer_store]

theorem scheduleAutoLogout_arm (now e : Int) (s : AuthState)
    (hinv : TimerInv s = true) (h0 : 0 ≤ now) (hlt : now < e) :
    (scheduleAutoLogout now (some e) s).pending = [(s.nextH, e)]
    ∧ (scheduleAutoLogout now (some e) s).ref = some s.nextH
    ∧ (scheduleAutoLogout now (some e) s).user = s.user
    ∧ (scheduleAutoLogout now (some e) s).store = s.store := by
  have hp := clearLogoutTimer_pending_nil s hinv
  have hn := clearLogoutTimer_nextH s
  have hu := clearLogoutTimer_user s
  have hs := clearLogoutTimer_store s
  have hnum : numTruthy (some e) = true := by
    simp [numTruthy]
    omega
  have hpos : ¬ ((some e : Option Int).getD 0 - now ≤ 0) := by
    simp [Option.getD]
    omega
  unfold scheduleAutoLogout
  rw [hnum]
  simp only [Bool.true_eq_false, if_false, if_neg hpos, hp, hn, hu, hs]
  simp

theorem TimerInv_scheduleAutoLogout (now : Int) (e : Option Int) (s : AuthState)
    (hinv : TimerInv s = true) : TimerInv (scheduleAutoLogout now e s) = true := by
  have hp := clearLogoutTimer_pending_nil s hinv
  unfold scheduleAutoLogout
  by_cases h1 : numTruthy e = false
  · rw [if_pos h1]
    exact TimerInv_of_pending_nil _ hp
  · rw [if_neg h1]
    by_cases h2 : e.getD 0 - now ≤ 0
    · rw [if_pos h2]
      apply TimerInv_of_pending_nil
      unfold logout
      exact clearLogoutTimer_pending_sub _ hp
    · rw [if_neg h2]
      rw [TimerInv]
      simp [hp]

theorem TimerInv_store_user (s : AuthState) (a : Option StoredJSON) (b : Option Session) :
    TimerInv { s with store := a, user := b } = TimerInv s := by
  rcases s with ⟨st, u, p, r, n, rd⟩
  rfl

theorem TimerInv_login (now : Int) (d : Session) (enr : Except Unit UserObj)
    (s : AuthState) (hinv : TimerInv s = true) :
    TimerInv (login now d enr s) = true := by
  unfold login finishLogin
  apply TimerInv_scheduleAutoLogout
  rw [TimerInv_store_user]
  exact hinv

theorem finishLogin_pending_arm (now e : Int) (t : Session) (s : AuthState)
    (hinv : TimerInv s = true) (h0 : 0 ≤ now) (hlt : now < e) :
    (finishLogin now e t s).pending = [(s.nextH, e)] := by
  unfold finishLogin
  have h := scheduleAutoLogout_arm now e
      { s with store := some (.valid t), user := some t }
      (by rw [TimerInv_store_user]; exact hinv) h0 hlt
  exact h.1

theorem login_nextH_arm (now : Int) (d : Session) (enr : Except Unit UserObj)
    (s : AuthState) (hinv : TimerInv s = true) (h0 : 0 ≤ now)
    (hlt : now < loginExpiry now d) :
    (login now d enr s).pending = [(s.nextH, loginExpiry now d)] := by
  unfold login
  exact finishLogin_pending_arm now (loginExpiry now d) _ s hinv h0 hlt

/-! ## Claim C1 — completeness of restored sessions -/

/-- C1 counterexample: the record `{ token: "t" }` has no `expiresAt`, yet
`hydrate()` restores it as the active in-memory Session, so a restored
Session need not have both `token` and `expiresAt` present. -/
theorem hydrate_restores_incomplete_record_cex :
    ((hydrateFull 1000 (authInit (some (.valid ⟨some "t", none, none, none, none⟩)))).user
        = some ⟨some "t", none, none, none, none⟩)
    ∧ (⟨some "t", none, none, none, none⟩ : Session).expiresAt = none := by
  decide

/-- C1 (amended): `hydrate()` performs no completeness check: every parsed
record whose `expiresAt` is absent — however partial, with or without a
`token` — is restored as the active Session; only a record with a truthy
`expiresAt` that has already passed is rejected. -/
theorem hydrate_restores_record_without_expiresAt (now : Int) (r : Session)
    (h : r.expiresAt = none) :
    (hydrateFull now (authInit (some (.valid r)))).user = some r := by
  simp [hydrateFull, hydrate, authInit, userEffect, numTruthy, h, clearLogoutTimer]

/-- C1 witness: the amended theorem applied to the record `{ token: "tW" }`
at `now = 1000`. -/
theorem hydrate_restores_record_without_expiresAt_w :
    (hydrateFull 1000 (authInit (some (.valid ⟨some "tW", none, none, none, none⟩)))).user
      = some ⟨some "tW", none, none, none, none⟩ :=
  hydrate_restores_record_without_expiresAt 1000 ⟨some "tW", none, none, none, none⟩ rfl

/-! ## Claim C4 — expiry enforcement at hydrate time -/

/-- C4 counterexample: the record `{ token: "t2", expiresAt: 0 }` has
`expiresAt = 0 ≤ 1000 = now`, yet hydration restores it and keeps the
persisted record, because `0` is falsy and the guard is
`expiresAt && Date.now() >= Number(expiresAt)`. -/
theorem hydrate_expired_zero_cex :
    ((hydrateFull 1000 (authInit (some (.valid ⟨some "t2", none, none, none, some 0⟩)))).user
        = some ⟨some "t2", none, none, none, some 0⟩)
    ∧ ((hydrateFull 1000 (authInit (some (.valid ⟨some "t2", none, none, none, some 0⟩)))).store
        = some (.valid ⟨some "t2", none, none, none, some 0⟩))
    ∧ ((0 : Int) ≤ 1000) := by
  decide

/-- C4 (amended): for every persisted record whose `expiresAt` is nonzero
(truthy) and ≤ the current time at hydrate time, `hydrate()` results in the
Unauthenticated state, the persisted record is cleared, and no expiry timer
is armed. -/
theorem hydrate_clears_expired_nonzero (now v : Int) (r : Session)
    (he : r.expiresAt = some v) (hnz : v ≠ 0) (hle : v ≤ now) :
    (hydrateFull now (authInit (some (.valid r)))).user = none
    ∧ (hydrateFull now (authInit (some (.valid r)))).store = none
    ∧ (hydrateFull now (authInit (some (.valid r)))).pending = [] := by
  simp [hydrateFull, hydrate, authInit, userEffect, numTruthy, he, hnz, hle,
        clearLogoutTimer]

/-- C4 witness: the spec scenario — stored record `{ token: "t2",
expiresAt: 500 }` with `now = 1000` hydrates to Unauthenticated with the
store cleared and no timer armed. -/
theorem hydrate_clears_expired_nonzero_w :
    (hydrateFull 1000 (authInit (some (.valid ⟨some "t2", none, none, none, some 500⟩)))).user = none
    ∧ (hydrateFull 1000 (authInit (some (.valid ⟨some "t2", none, none, none, some 500⟩)))).store = none
    ∧ (hydrateFull 1000 (authInit (some (.valid ⟨some "t2", none, none, none, some 500⟩)))).pending = [] :=
  hydrate_clears_expired_nonzero 1000 500 ⟨some "t2", none, none, none, some 500⟩
    rfl (by decide) (by decide)

/-! ## Claim C5 — persist/hydrate round-trip -/

/-- C5: for every valid Session (token present, `expiresAt = some v` with
`v` in the future at hydrate time), persisting it and running `hydrate()`
restores an in-memory Session equal to it. -/
theorem persist_then_hydrate_roundtrip (now v : Int) (r : Session)
    (_htok : strTruthy r.token = true) (he : r.expiresAt = some v)
    (h0 : 0 ≤ now) (hfut : now < v) :
    (hydrateFull now (authInit (some (.valid r)))).user = some r := by
  have hnz : (v != 0) = true := by
    simp
    omega
  have hnle : ¬ (v ≤ now) := by omega
  have hpos : ¬ (v - now ≤ 0) := by omega
  simp [hydrateFull, hydrate, authInit, userEffect, numTruthy, he, hnle, hnz,
        scheduleAutoLogout, clearLogoutTimer, hpos]

/-- C5 witness: the round-trip theorem applied to the full session
`{ token: "tk", role: "admin", id: "7", username: "alice",
expiresAt: 999999 }` at `now = 1000`. -/
theorem persist_then_hydrate_roundtrip_w :
    (hydrateFull 1000 (authInit (some (.valid
        ⟨some "tk", some "admin", some "7", some "alice", some 999999⟩)))).user
      = some ⟨some "tk", some "admin", some "7", some "alice", some 999999⟩ :=
  persist_then_hydrate_roundtrip 1000 999999
    ⟨some "tk", some "admin", some "7", some "alice", some 999999⟩
    (by decide) rfl (by decide) (by decide)

/-! ## Claim C6 — corrupted-record recovery -/

/-- C6: for every current time, hydrating over a persisted value that is not
valid serialized Session data yields the Unauthenticated state with the
persisted record cleared and no timer armed, and hydration still completes
normally (`ready` becomes true — the parse failure is absorbed by the
`try`/`catch`; `hydrate` is a total function, so no exception escapes). -/
theorem corrupted_hydrate_recovers (now : Int) :
    (hydrateFull now (authInit (some .corrupt))).user = none
    ∧ (hydrateFull now (authInit (some .corrupt))).store = none
    ∧ (hydrateFull now (authInit (some .corrupt))).pending = []
    ∧ (hydrateFull now (authInit (some .corrupt))).ready = true := by
  simp [hydrateFull, hydrate, authInit, userEffect, clearLogoutTimer]

/-! ## Claim C3 — the default-window login scenario -/

/-- C3 counterexample: `login({ token: "t1" })` at `now = 1000` with the
default one-hour window yields `expiresAt = 1000 + 3600000 = 3601000`, not
`4601000` as the claim states. -/
theorem login_default_expiry_cex :
    ((login 1000 ⟨some "t1", none, none, none, none⟩ (.error ()) (authInit none)).user.bind
        (fun r => r.expiresAt)) = some 3601000
    ∧ ((login 1000 ⟨some "t1", none, none, none, none⟩ (.error ()) (authInit none)).user.bind
        (fun r => r.expiresAt)) ≠ some 4601000 := by
  decide

/-- C3 (amended): `login({ token: "t1" })` at `now = 1000` with the default
one-hour window yields a Session with `expiresAt = 3601000`; one timeout is
armed with fire time `3601000`, and when it fires the state becomes
Unauthenticated with the persisted record cleared and no timer pending. -/
theorem login_default_expiry_scenario :
    ((login 1000 ⟨some "t1", none, none, none, none⟩ (.error ()) (authInit none)).user.bind
        (fun r => r.expiresAt)) = some 3601000
    ∧ (login 1000 ⟨some "t1", none, none, none, none⟩ (.error ()) (authInit none)).pending
        = [(1, 3601000)]
    ∧ (fireTimer 1 (login 1000 ⟨some "t1", none, none, none, none⟩ (.error ())
        (authInit none))).user = none
    ∧ (fireTimer 1 (login 1000 ⟨some "t1", none, none, none, none⟩ (.error ())
        (authInit none))).store = none
    ∧ (fireTimer 1 (login 1000 ⟨some "t1", none, none, none, none⟩ (.error ())
        (authInit none))).pending = [] := by
  decide

/-! ## Claim C2 — logout racing a pending enrichment -/

/-- C2: evaluation of the interleaving in which `logout()` runs while the
role-enrichment call of `login({ token: "t1" })` (at `now = 1000`) is
pending and the call then resolves with an admin profile. The resumed tail
of `login` writes the enriched session to both the persisted record and the
in-memory state and re-arms the timer, so the final state is Authenticated —
the resolution is not discarded as the claim requires. -/
theorem logout_during_enrichment_overwritten :
    ((loginLogoutRace 1000 ⟨some "t1", none, none, none, none⟩
        (.ok ⟨some "u1", none, none, some "alice", none, some "admin"⟩)
        (authInit none)).user
      = some ⟨some "t1", some "admin", some "u1", none, some 3601000⟩)
    ∧ ((loginLogoutRace 1000 ⟨some "t1", none, none, none, none⟩
        (.ok ⟨some "u1", none, none, some "alice", none, some "admin"⟩)
        (authInit none)).store
      = some (.valid ⟨some "t1", some "admin", some "u1", none, some 3601000⟩))
    ∧ ((loginLogoutRace 1000 ⟨some "t1", none, none, none, none⟩
        (.ok ⟨some "u1", none, none, some "alice", none, some "admin"⟩)
        (authInit none)).pending
      = [(1, 3601000)]) := by
  decide

/-! ## Claim C7 — malformed login responses -/

/-- C7: `loginUser` raises exactly on the malformed-response rule: a
transport-successful response throws iff its `token` is missing (falsy) or
its `user` field is missing; when both are present the pair
`{ user: normalizeUser(user), token }` is returned (and nothing else is
created — `loginUser` is a pure function of the response). -/
theorem loginUser_malformed_iff (resp : LoginResponse) :
    ((∃ e, loginUser resp = .error e) ↔ strTruthy resp.token = false ∨ resp.user = none)
    ∧ (∀ t u, resp.token = some t → strTruthy resp.token = true → resp.user = some u →
        loginUser resp = .ok (normalizeUser u, t)) := by
  constructor
  · cases hk : resp.token with
    | none => cases hu : resp.user <;> simp [loginUser, hk, hu, strTruthy]
    | some t =>
      cases hu : resp.user with
      | none => simp [loginUser, hk, hu, strTruthy]
      | some u =>
        by_cases ht : t = "" <;> simp [loginUser, hk, hu, strTruthy, ht]
  · intro t u h1 h2 h3
    rw [h1] at h2
    have ht : ¬ (t = "") := by simpa [strTruthy] using h2
    unfold loginUser
    rw [h1, h3]
    simp [ht]

/-- C7 witness: a well-formed response returns the normalized pair, and a
response without a token is rejected. -/
theorem loginUser_malformed_iff_w :
    loginUser ⟨some "tok", some ⟨none, none, none, some "alice", none, none⟩⟩
      = .ok (normalizeUser ⟨none, none, none, some "alice", none, none⟩, "tok")
    ∧ (∃ e, loginUser ⟨none, some ⟨none, none, none, some "alice", none, none⟩⟩ = .error e) :=
  ⟨(loginUser_malformed_iff _).2 "tok" ⟨none, none, none, some "alice", none, none⟩
      rfl (by decide) rfl,
   (loginUser_malformed_iff _).1.mpr (Or.inl (by decide))⟩

/-! ## Claim C8 — the single-timer discipline -/

/-- C8: from any state satisfying the timer discipline, two successive
`login` calls leave exactly one pending timeout, bound to the second call's
`expiresAt` (the arming path always runs `clearLogoutTimer` first, so the
first call's timer is gone). -/
theorem relogin_single_timer (now1 now2 : Int) (d1 d2 : Session)
    (en1 en2 : Except Unit UserObj) (s : AuthState)
    (hinv : TimerInv s = true) (h0 : 0 ≤ now2) (hfut : now2 < loginExpiry now2 d2) :
    (login now2 d2 en2 (login now1 d1 en1 s)).pending
      = [((login now1 d1 en1 s).nextH, loginExpiry now2 d2)] :=
  login_nextH_arm now2 d2 en2 (login now1 d1 en1 s)
    (TimerInv_login now1 d1 en1 s hinv) h0 hfut

/-- C8 witness: a rapid re-login — `login({ token: "a" })` at `now = 0`
followed by `login({ token: "b" })` at `now = 10` from a fresh state —
leaves exactly one pending timeout, at the second call's expiry `3600010`,
not the first call's `3600000`. -/
theorem relogin_single_timer_w :
    (login 10 ⟨some "b", none, none, none, none⟩ (.error ())
        (login 0 ⟨some "a", none, none, none, none⟩ (.error ()) (authInit none))).pending
      = [(2, 3600010)] := by
  have h := relogin_single_timer 0 10 ⟨some "a", none, none, none, none⟩
      ⟨some "b", none, none, none, none⟩ (.error ()) (.error ()) (authInit none)
      (by decide) (by decide) (by decide)
  exact h

/-! ## Claim C9 — enrichment failures never block login -/

theorem finishLogin_user_arm (now e : Int) (t : Session) (s : AuthState)
    (h1 : e ≠ 0) (h2 : now < e) :
    (finishLogin now e t s).user = some t := by
  unfold finishLogin scheduleAutoLogout
  have hnum : numTruthy (some e) = true := by
    simp [numTruthy]
    omega
  have hpos : ¬ ((some e : Option Int).getD 0 - now ≤ 0) := by
    simp
    omega
  rw [hnum]
  simp only [Bool.true_eq_false, if_false, if_neg hpos]
  simp [clearLogoutTimer_user]

/-- C9: for every `login({ token })` call whose input has a truthy token, no
role, and no caller-supplied `expiresAt`, if the role-enrichment fetch fails
the state still becomes Authenticated: the in-memory Session carries the
supplied token, an absent role, and the default-window expiry — the
rejection is swallowed by the `catch` and never propagated. -/
theorem login_enrich_failure_still_authenticated (now : Int) (d : Session)
    (s : AuthState) (_hrole : d.role = none) (_htok : strTruthy d.token = true)
    (hexp : d.expiresAt = none) (h0 : 0 ≤ now) :
    (login now d (.error ()) s).user
      = some { d with expiresAt := some (computeExpiry now hourMs) } := by
  have hE : loginExpiry now d = computeExpiry now hourMs := by
    simp [loginExpiry, hexp, numTruthy]
  have hne : computeExpiry now hourMs ≠ 0 := by
    unfold computeExpiry hourMs
    omega
  have hlt : now < computeExpiry now hourMs := by
    unfold computeExpiry hourMs
    omega
  unfold login
  rw [hE]
  show (finishLogin now (computeExpiry now hourMs)
      (if strTruthy ({ d with expiresAt := some (computeExpiry now hourMs) } : Session).role = false
          ∧ strTruthy ({ d with expiresAt := some (computeExpiry now hourMs) } : Session).token = true
        then { d with expiresAt := some (computeExpiry now hourMs) }
        else { d with expiresAt := some (computeExpiry now hourMs) }) s).user
      = some { d with expiresAt := some (computeExpiry now hourMs) }
  rw [ite_self]
  exact finishLogin_user_arm now _ _ s hne hlt

/-- C9 witness: `login({ token: "t1" })` at `now = 1000` with the enrichment
call failing still authenticates with the supplied token, absent role, and
the default one-hour expiry. -/
theorem login_enrich_failure_still_authenticated_w :
    (login 1000 ⟨some "t1", none, none, none, none⟩ (.error ()) (authInit none)).user
      = some ⟨some "t1", none, none, none, some 3601000⟩ := by
  have h := login_enrich_failure_still_authenticated 1000
      ⟨some "t1", none, none, none, none⟩ (authInit none) rfl (by decide) rfl (by decide)
  exact h

/-! ## Claim C10 — normalization always yields a role -/

theorem normalizeUser_role_some (raw : UserObj) :
    ∃ x, (normalizeUser raw).role = some x := by
  cases hr : raw.role with
  | none => exact ⟨"user", by simp [normalizeUser, jsOrS, strTruthy, hr]⟩
  | some sr =>
    by_cases h : sr = ""
    · exact ⟨"user", by simp [normalizeUser, jsOrS, strTruthy, hr, h]⟩
    · exact ⟨sr, by simp [normalizeUser, jsOrS, strTruthy, hr, h]⟩

/-- C10: for every non-null user object, `normalizeUser` yields a user whose
`role` is present (defaulting to `"user"` when the raw object carries none)
and whose `id` is coalesced from the first truthy of `id`, `_id`, `userId`
(absent when all three are falsy, since the JS chain then collapses to its
trailing `rest?.id = undefined`); consequently a user returned by
`loginUser` or `fetchCurrentUser` never has an absent role. ("Present"
throughout is JS-truthy: a missing field and the empty string are both
falsy.) -/
theorem normalizeUser_defaults (raw : UserObj) :
    ((normalizeUser raw).role ≠ none)
    ∧ (raw.role = none → (normalizeUser raw).role = some "user")
    ∧ (strTruthy raw.id = true → (normalizeUser raw).id = raw.id)
    ∧ (strTruthy raw.id = false → strTruthy raw._id = true →
        (normalizeUser raw).id = raw._id)
    ∧ (strTruthy raw.id = false → strTruthy raw._id = false →
        strTruthy raw.userId = true → (normalizeUser raw).id = raw.userId)
    ∧ (strTruthy raw.id = false → strTruthy raw._id = false →
        strTruthy raw.userId = false → (normalizeUser raw).id = none)
    ∧ (∀ resp u t, loginUser resp = .ok (u, t) → u.role ≠ none)
    ∧ (∀ tok mresp u, fetchCurrentUser tok mresp = .ok u → u.role ≠ none) := by
  refine ⟨?_, ?_, ?_, ?_, ?_, ?_, ?_, ?_⟩
  · obtain ⟨x, hx⟩ := normalizeUser_role_some raw
    simp [hx]
  · intro h
    simp [normalizeUser, jsOrS, strTruthy, h]
  · intro h
    simp [normalizeUser, jsOrS, h]
  · intro h1 h2
    simp [normalizeUser, jsOrS, h1, h2]
  · intro h1 h2 h3
    simp [normalizeUser, jsOrS, h1, h2, h3]
  · intro h1 h2 h3
    simp [normalizeUser, jsOrS, h1, h2, h3]
  · intro resp u t h
    cases hk : resp.token with
    | none => simp [loginUser, hk] at h
    | some tt =>
      cases hu : resp.user with
      | none => simp [loginUser, hk, hu] at h
      | some uu =>
        by_cases ht : tt = ""
        · simp [loginUser, hk, hu, ht] at h
        · simp [loginUser, hk, hu, ht] at h
          obtain ⟨x, hx⟩ := normalizeUser_role_some uu
          rw [← h.1, hx]
          simp
  · intro tok mresp u h
    unfold fetchCurrentUser at h
    by_cases ht : strTruthy tok = false
    · simp [ht] at h
    · simp [ht] at h
      obtain ⟨x, hx⟩ := normalizeUser_role_some (mresp.user.getD mresp.selfObj)
      rw [← h, hx]
      simp

/-- C10 witness: the raw object `{ _id: "m1" }` normalizes to a user with
role `"user"` and id `"m1"`; the raw object `{ userId: "" }` normalizes to
an absent id (the falsy `""` collapses to `undefined`); and a `loginUser`
success carries a present role. -/
theorem normalizeUser_defaults_w :
    (normalizeUser ⟨none, some "m1", none, none, none, none⟩).role = some "user"
    ∧ (normalizeUser ⟨none, some "m1", none, none, none, none⟩).id = some "m1"
    ∧ (normalizeUser ⟨none, none, some "", none, none, none⟩).id = none
    ∧ ((normalizeUser ⟨none, some "m1", none, none, none, none⟩).role ≠ none) :=
  ⟨(normalizeUser_defaults ⟨none, some "m1", none, none, none, none⟩).2.1 rfl,
   (normalizeUser_defaults ⟨none, some "m1", none, none, none, none⟩).2.2.2.1
      (by decide) (by decide),
   (normalizeUser_defaults ⟨none, none, some "", none, none, none⟩).2.2.2.2.2.1
      (by decide) (by decide) (by decide),
   (normalizeUser_defaults
      ⟨none, some "m1", none, none, none, none⟩).2.2.2.2.2.2.1
      ⟨some "tok", some ⟨none, some "m1", none, none, none, none⟩⟩
      (normalizeUser ⟨none, some "m1", none, none, none, none⟩) "tok" rfl⟩
